import Mathlib

/-!
Verification of the whisperVox model acquisition and lifecycle manager
(`src/hooks/use-whisper-model.ts`).

The hook's mutable React state is embedded as an explicit `ManagerState`
record, its asynchronous filesystem / network / native-module collaborators
as explicit environment records whose fields give the outcome of each
external call, and each operation (`getModelDirectory`, `downloadModel`,
`initializeWhisperModel`, `resetWhisperContext`, `deleteModel`, the mount
scan) as a pure state-transformer over those.  Progress publications are
additionally collected into a trace so that ordering properties can be
stated.
-/

/-- Capability flags of a catalog entry (`WhisperModel.capabilities`). -/
structure Capabilities where
  multilingual : Bool
  quantizable : Bool
  tdrz : Option Bool
deriving Repr, DecidableEq

/-- A catalog entry, `interface WhisperModel` in the source. -/
structure WhisperModel where
  id : String
  label : String
  url : String
  filename : String
  capabilities : Capabilities
deriving Repr, DecidableEq

/-- Cached stat record for a downloaded model, `interface ModelFileInfo`. -/
structure ModelFileInfo where
  path : String
  size : Nat
deriving Repr, DecidableEq

/-- The static catalog `WHISPER_MODELS` of `src/hooks/use-whisper-model.ts`. -/
def WHISPER_MODELS : List WhisperModel := [
  { id := "large-v3-turbo", label := "Large Multilanguae",
    url := "https://huggingface.co/ggerganov/whisper.cpp/resolve/main/ggml-large-v3-turbo.bin",
    filename := "ggml-large-v3-turbo.bin",
    capabilities := { multilingual := true, quantizable := false, tdrz := none } },
  { id := "tiny-en", label := "Tiny (en)",
    url := "https://huggingface.co/ggerganov/whisper.cpp/resolve/main/ggml-tiny.en.bin",
    filename := "ggml-tiny.en.bin",
    capabilities := { multilingual := false, quantizable := false, tdrz := none } },
  { id := "base", label := "Base Model",
    url := "https://huggingface.co/ggerganov/whisper.cpp/resolve/main/ggml-base.bin",
    filename := "ggml-base.bin",
    capabilities := { multilingual := true, quantizable := false, tdrz := none } },
  { id := "small", label := "Small Model",
    url := "https://huggingface.co/ggerganov/whisper.cpp/resolve/main/ggml-small.bin",
    filename := "ggml-small.bin",
    capabilities := { multilingual := true, quantizable := false, tdrz := none } },
  { id := "small-tdrz", label := "Small (tdrz)",
    url := "https://huggingface.co/ggerganov/whisper.cpp/resolve/main/ggml-small.en-tdrz.bin",
    filename := "ggml-small.en-tdrz.bin",
    capabilities := { multilingual := false, quantizable := false, tdrz := some true } }]

/-- String-keyed finite map, embedding the JS `Record<string, T>` objects. -/
def StrMap (α : Type) : Type := String → Option α

/-- The empty record `{}`. -/
def StrMap.empty {α : Type} : StrMap α := fun _ => none

/-- The JS spread update `{...prev, [k]: v}`. -/
def StrMap.insert {α : Type} (m : StrMap α) (k : String) (v : α) : StrMap α :=
  fun q => if q = k then some v else m q

/-- The JS `delete next[k]` on a copy of the record. -/
def StrMap.erase {α : Type} (m : StrMap α) (k : String) : StrMap α :=
  fun q => if q = k then none else m q

/-- The whole of the hook's `useState` cells, as one record. -/
structure ManagerState where
  modelFiles : StrMap ModelFileInfo
  downloadProgress : StrMap Rat
  isDownloading : Bool
  isInitializingModel : Bool
  whisperContext : Option Nat
  vadContext : Option Nat
  currentModelId : Option String

/-- The hook's initial state: every cell empty / false / null. -/
def initialManagerState : ManagerState where
  modelFiles := StrMap.empty
  downloadProgress := StrMap.empty
  isDownloading := false
  isInitializingModel := false
  whisperContext := none
  vadContext := none
  currentModelId := none

/-- Result of a `file.info()` stat call. -/
structure FileStat where
  here : Bool
  size : Nat
deriving Repr, DecidableEq

/-- Errors thrown by the manager (the `throw new Error(...)` sites). -/
inductive WhisperError where
  /-- "Document directory is not available." -/
  | storageUnavailable
  /-- `directory.create` threw and was re-thrown. -/
  | dirCreateFailed
  /-- "Download failed with status: ..." (`none` = `downloadAsync` returned `undefined`). -/
  | downloadFailed (status : Option Nat)
  /-- "Invalid model selected". -/
  | unknownModel
  /-- "Native module 'whisper.rn' not available in this runtime". -/
  | engineUnavailable
  /-- `whisperNative.initWhisper` threw and was re-thrown. -/
  | engineInitFailed
  /-- `file.info()` or `file.delete()` threw inside `deleteModel`. -/
  | deleteFailed
deriving Repr, DecidableEq

/-- Local filesystem directory state: the set of directory paths that exist. -/
structure FS where
  dirs : List String
deriving Repr, DecidableEq

/-- The call `directory.create({ idempotent: true, intermediates: true })`: no-op
success when the directory already exists, otherwise creates it; `canCreate`
is the environment's verdict on an actual creation attempt. -/
def fsCreateDir (fs : FS) (path : String) (canCreate : Bool) : Except Unit FS :=
  if path ∈ fs.dirs then .ok fs
  else if canCreate then .ok { dirs := path :: fs.dirs } else .error ()

/-- Function `getModelDirectory` of `use-whisper-model.ts` (lines 112-139): resolve
`Paths.document` (`docRoot = none` embeds both the resolution throwing and a
missing `uri`, which the source checks with `!documentDirectory?.uri`, so an
empty-string uri is also unavailable), then idempotently create the fixed
"whisper-models" subdirectory, re-throwing a creation failure. -/
def getModelDirectory (docRoot : Option String) (canCreate : Bool) (fs : FS) :
    Except WhisperError (FS × String) :=
  match docRoot with
  | none => .error .storageUnavailable
  | some root =>
    if root = "" then .error .storageUnavailable
    else
      let path := root ++ "/whisper-models"
      match fsCreateDir fs path canCreate with
      | .ok fs2 => .ok (fs2, path)
      | .error _ => .error .dirCreateFailed

/-- Iterate `getModelDirectory` `n` times, threading the filesystem through
successful calls and recording each call's result. -/
def iterateModelDirectory (docRoot : Option String) (canCreate : Bool) :
    Nat → FS → FS × List (Except WhisperError String)
  | 0, fs => (fs, [])
  | n + 1, fs =>
    match getModelDirectory docRoot canCreate fs with
    | .ok (fs2, path) =>
      let rest := iterateModelDirectory docRoot canCreate n fs2
      (rest.1, .ok path :: rest.2)
    | .error e =>
      let rest := iterateModelDirectory docRoot canCreate n fs
      (rest.1, .error e :: rest.2)

/-- Environment for one `downloadModel` run: outcomes of the external calls
it makes, in order. -/
structure DlEnv where
  /-- `Paths.document` (`none` = throws or has no uri). -/
  docRoot : Option String
  /-- Whether an actual `directory.create` attempt would succeed. -/
  canCreate : Bool
  /-- First `file.info()` (the existence check); `.error` = it threw. -/
  stat1 : Except Unit FileStat
  /-- `file.info()` inside `updateModelFileInfo`; `.error` = it threw. -/
  stat2 : Except Unit FileStat
  /-- The `(totalBytesWritten, totalBytesExpectedToWrite)` progress ticks
  delivered by `createDownloadResumable` during `downloadAsync`. -/
  ticks : List (Nat × Nat)
  /-- Terminal result of `downloadAsync`: its `status`, or `none` when the
  call resolved to `undefined`. -/
  downloadResult : Option Nat

/-- Observable side effects of a `downloadModel` run. -/
structure DlTrace where
  /-- The progress fractions published for the model, in order. -/
  progressEvents : List Rat
  /-- Whether a network transfer was started (`createDownloadResumable` /
  `downloadAsync` invoked). -/
  networkStarted : Bool
deriving Repr, DecidableEq

/-- Outcome of a `downloadModel` run. -/
structure DlOutcome where
  result : Except WhisperError String
  fs : FS
  state : ManagerState
  trace : DlTrace

/-- The fraction published on one progress tick:
`totalBytesExpectedToWrite > 0 ? totalBytesWritten / totalBytesExpectedToWrite : 0`. -/
def tickFraction (written expected : Nat) : Rat :=
  if 0 < expected then (written : Rat) / (expected : Rat) else 0

/-- The terminal-status acceptance test of `downloadModel`:
`status === 0 || (status >= 200 && status < 300)`. -/
def isSuccessStatus (status : Nat) : Bool :=
  status == 0 || (200 ≤ status && status < 300)

/-- The existence check of `downloadModel` (lines 175-189): a stat failure
is logged and treated as "file absent". -/
def preStatHere (stat : Except Unit FileStat) : Bool :=
  match stat with
  | .ok st => st.here
  | .error _ => false

/-- The `updateModelFileInfo` helper (lines 148-172): re-stat the file and
cache `{path, size}`; a stat failure or a missing file falls back to size 0
instead of failing. -/
def updateModelFileInfo (stat : Except Unit FileStat) (modelId fileUri : String)
    (files : StrMap ModelFileInfo) : StrMap ModelFileInfo :=
  match stat with
  | .ok st =>
    if st.here then files.insert modelId { path := fileUri, size := st.size }
    else files.insert modelId { path := fileUri, size := 0 }
  | .error _ => files.insert modelId { path := fileUri, size := 0 }

/-- Function `downloadModel` of `use-whisper-model.ts` (lines 142-243).  Resolve the
directory and target file; if the existence stat (failures treated as
"absent") says the file is there, refresh the cache and return the uri with
no transfer.  Otherwise set the downloading flag, run the resumable transfer
publishing `tickFraction` per tick, accept exactly the statuses passing
`isSuccessStatus` (refreshing the cache and publishing a final 1), throw
`downloadFailed` otherwise, and clear the downloading flag either way. -/
def downloadModel (env : DlEnv) (fs : FS) (model : WhisperModel)
    (s : ManagerState) : DlOutcome :=
  match getModelDirectory env.docRoot env.canCreate fs with
  | .error e => { result := .error e, fs := fs, state := s,
                  trace := { progressEvents := [], networkStarted := false } }
  | .ok (fs2, dirPath) =>
    let fileUri := dirPath ++ "/" ++ model.filename
    if preStatHere env.stat1 then
      { result := .ok fileUri, fs := fs2,
        state := { s with
          modelFiles := updateModelFileInfo env.stat2 model.id fileUri s.modelFiles },
        trace := { progressEvents := [], networkStarted := false } }
    else
      let fracs := env.ticks.map (fun t => tickFraction t.1 t.2)
      let progressed := fracs.foldl (fun m f => m.insert model.id f) s.downloadProgress
      match env.downloadResult with
      | some status =>
        if isSuccessStatus status then
          { result := .ok fileUri, fs := fs2,
            state := { s with
              modelFiles := updateModelFileInfo env.stat2 model.id fileUri s.modelFiles,
              downloadProgress := progressed.insert model.id 1,
              isDownloading := false },
            trace := { progressEvents := fracs ++ [1], networkStarted := true } }
        else
          { result := .error (.downloadFailed (some status)), fs := fs2,
            state := { s with downloadProgress := progressed, isDownloading := false },
            trace := { progressEvents := fracs, networkStarted := true } }
      | none =>
        { result := .error (.downloadFailed none), fs := fs2,
          state := { s with downloadProgress := progressed, isDownloading := false },
          trace := { progressEvents := fracs, networkStarted := true } }

/-- Once the "whisper-models" directory exists, `getModelDirectory` succeeds
without touching the filesystem, whatever a fresh creation attempt would do. -/
theorem getModelDirectory_of_mem (root : String) (c : Bool) (fs : FS)
    (hroot : root ≠ "") (hmem : (root ++ "/whisper-models") ∈ fs.dirs) :
    getModelDirectory (some root) c fs = .ok (fs, root ++ "/whisper-models") := by
  simp [getModelDirectory, fsCreateDir, hroot, hmem]

/-- Iterating `getModelDirectory` over a filesystem that already holds the
directory is the identity and answers the same path every time. -/
theorem iterateModelDirectory_of_mem (root : String) (c : Bool) (n : Nat) (fs : FS)
    (hroot : root ≠ "") (hmem : (root ++ "/whisper-models") ∈ fs.dirs) :
    iterateModelDirectory (some root) c n fs
      = (fs, List.replicate n (.ok (root ++ "/whisper-models"))) := by
  induction n with
  | zero => simp [iterateModelDirectory]
  | succ m ih =>
    simp [iterateModelDirectory, getModelDirectory_of_mem root c fs hroot hmem, ih,
      List.replicate_succ]

/-- C8: `ensureModelDirectory` (`getModelDirectory`) is idempotent — with a
resolvable document root, N ≥ 1 calls all succeed with the same path and
leave exactly one "whisper-models" directory; once the directory exists no
later call fails or changes the filesystem; and the call fails with
`StorageUnavailable` exactly when the document root cannot be resolved or
has no addressable (non-empty) location. -/
theorem getModelDirectory_idempotent_storageUnavailable :
    (∀ (root : String) (fs : FS) (n : Nat), root ≠ "" → 1 ≤ n →
      (root ++ "/whisper-models") ∉ fs.dirs →
      (∀ r ∈ (iterateModelDirectory (some root) true n fs).2,
          r = .ok (root ++ "/whisper-models")) ∧
      (iterateModelDirectory (some root) true n fs).1.dirs.count
          (root ++ "/whisper-models") = 1)
  ∧ (∀ (root : String) (c : Bool) (fs : FS), root ≠ "" →
      (root ++ "/whisper-models") ∈ fs.dirs →
      getModelDirectory (some root) c fs = .ok (fs, root ++ "/whisper-models"))
  ∧ (∀ (docRoot : Option String) (c : Bool) (fs : FS),
      getModelDirectory docRoot c fs = .error .storageUnavailable
        ↔ (docRoot = none ∨ docRoot = some "")) := by
  refine ⟨?_, fun root c fs h1 h2 => getModelDirectory_of_mem root c fs h1 h2, ?_⟩
  · intro root fs n hroot hn hnew
    cases n with
    | zero => exact absurd hn (by omega)
    | succ m =>
      have hdir : getModelDirectory (some root) true fs
          = .ok (⟨(root ++ "/whisper-models") :: fs.dirs⟩, root ++ "/whisper-models") := by
        simp [getModelDirectory, fsCreateDir, hroot, hnew]
      have hmem2 : (root ++ "/whisper-models")
          ∈ (FS.mk ((root ++ "/whisper-models") :: fs.dirs)).dirs := by simp
      have hiter := iterateModelDirectory_of_mem root true m
        ⟨(root ++ "/whisper-models") :: fs.dirs⟩ hroot hmem2
      constructor
      · intro r hr
        simp only [iterateModelDirectory, hdir, hiter, List.mem_cons] at hr
        rcases hr with h | h
        · exact h
        · exact (List.eq_of_mem_replicate h)
      · simp [iterateModelDirectory, hdir, hiter, List.count_cons_self,
          List.count_eq_zero_of_not_mem hnew]
  · intro docRoot c fs
    cases docRoot with
    | none => simp [getModelDirectory]
    | some root =>
      by_cases hroot : root = ""
      · subst hroot
        simp [getModelDirectory]
      · simp only [getModelDirectory, hroot, if_neg, Option.some.injEq]
        cases h : fsCreateDir fs (root ++ "/whisper-models") c <;>
          simp [h, hroot]

/-- Witness for C8 at a concrete root and an empty filesystem: two calls
both succeed and leave a single directory. -/
theorem getModelDirectory_idempotent_storageUnavailable_witness :
    (∀ r ∈ (iterateModelDirectory (some "file:///docs") true 2 ⟨[]⟩).2,
        r = .ok ("file:///docs" ++ "/whisper-models")) ∧
    (iterateModelDirectory (some "file:///docs") true 2 ⟨[]⟩).1.dirs.count
        ("file:///docs" ++ "/whisper-models") = 1 :=
  getModelDirectory_idempotent_storageUnavailable.1 "file:///docs" ⟨[]⟩ 2
    (by decide) (by decide) (by simp)

/-- The "base" entry of the catalog, used as a concrete input. -/
def baseModel : WhisperModel :=
  { id := "base", label := "Base Model",
    url := "https://huggingface.co/ggerganov/whisper.cpp/resolve/main/ggml-base.bin",
    filename := "ggml-base.bin",
    capabilities := { multilingual := true, quantizable := false, tdrz := none } }

/-- C1: when the file is absent and the transfer reaches a terminal result
with status `st`, `downloadModel` succeeds iff `st = 0` or `200 ≤ st ≤ 299`;
any other status makes it throw `DownloadFailed st` and leave the model's
ModelFileInfo cache entry untouched (in particular, none is created). -/
theorem downloadModel_success_iff_status
    (env : DlEnv) (fs fs2 : FS) (dirPath : String) (model : WhisperModel)
    (s : ManagerState)
    (hdir : getModelDirectory env.docRoot env.canCreate fs = .ok (fs2, dirPath))
    (hpre : preStatHere env.stat1 = false)
    (status : Nat) (hres : env.downloadResult = some status) :
    ((downloadModel env fs model s).result
        = .ok (dirPath ++ "/" ++ model.filename)
      ↔ (status = 0 ∨ (200 ≤ status ∧ status ≤ 299)))
  ∧ (¬ (status = 0 ∨ (200 ≤ status ∧ status ≤ 299)) →
      (downloadModel env fs model s).result
          = .error (.downloadFailed (some status)) ∧
      (downloadModel env fs model s).state.modelFiles model.id
          = s.modelFiles model.id) := by
  have hiff : (isSuccessStatus status = true)
      ↔ (status = 0 ∨ (200 ≤ status ∧ status ≤ 299)) := by
    simp only [isSuccessStatus, Bool.or_eq_true, beq_iff_eq, Bool.and_eq_true,
      decide_eq_true_eq]
    omega
  by_cases h : isSuccessStatus status = true
  · refine ⟨?_, fun hc => absurd (hiff.mp h) hc⟩
    simp [downloadModel, hdir, hpre, h, hres, hiff.mp h]
  · have h2 : ¬ (status = 0 ∨ (200 ≤ status ∧ status ≤ 299)) :=
      fun hc => h (hiff.mpr hc)
    refine ⟨?_, fun _ => ⟨?_, ?_⟩⟩ <;>
      simp [downloadModel, hdir, hpre, h, hres, h2]

/-- Witness for C1: a 404 terminal status on a fresh state throws
`DownloadFailed 404` and creates no cache entry for "base". -/
theorem downloadModel_success_iff_status_witness :
    (downloadModel
        { docRoot := some "file:///docs", canCreate := true,
          stat1 := .ok ⟨false, 0⟩, stat2 := .ok ⟨true, 100⟩,
          ticks := [(50, 100)], downloadResult := some 404 }
        ⟨[]⟩ baseModel initialManagerState).result
      = .error (.downloadFailed (some 404)) ∧
    (downloadModel
        { docRoot := some "file:///docs", canCreate := true,
          stat1 := .ok ⟨false, 0⟩, stat2 := .ok ⟨true, 100⟩,
          ticks := [(50, 100)], downloadResult := some 404 }
        ⟨[]⟩ baseModel initialManagerState).state.modelFiles "base" = none := by
  have h := downloadModel_success_iff_status
    { docRoot := some "file:///docs", canCreate := true,
      stat1 := .ok ⟨false, 0⟩, stat2 := .ok ⟨true, 100⟩,
      ticks := [(50, 100)], downloadResult := some 404 }
    ⟨[]⟩ ⟨["file:///docs/whisper-models"]⟩ "file:///docs/whisper-models"
    baseModel initialManagerState (by rfl) (by rfl) 404 rfl
  have h2 := h.2 (by omega)
  refine ⟨h2.1, ?_⟩
  rw [show baseModel.id = "base" from rfl] at h2
  rw [h2.2]
  rfl

/-- C2: when the file already exists on disk, `downloadModel` returns the
local path with no network transfer and no progress publication, refreshes
the ModelFileInfo cache from the (re-)stat, and leaves the progress map and
the downloading flag exactly as they were. -/
theorem downloadModel_existing_file
    (env : DlEnv) (fs fs2 : FS) (dirPath : String) (model : WhisperModel)
    (s : ManagerState)
    (hdir : getModelDirectory env.docRoot env.canCreate fs = .ok (fs2, dirPath))
    (hpre : preStatHere env.stat1 = true) :
    (downloadModel env fs model s).result = .ok (dirPath ++ "/" ++ model.filename)
  ∧ (downloadModel env fs model s).trace.networkStarted = false
  ∧ (downloadModel env fs model s).trace.progressEvents = []
  ∧ (downloadModel env fs model s).state.downloadProgress = s.downloadProgress
  ∧ (downloadModel env fs model s).state.isDownloading = s.isDownloading
  ∧ (downloadModel env fs model s).state.modelFiles
      = updateModelFileInfo env.stat2 model.id (dirPath ++ "/" ++ model.filename)
          s.modelFiles := by
  refine ⟨?_, ?_, ?_, ?_, ?_, ?_⟩ <;> simp [downloadModel, hdir, hpre]

/-- Witness for C2: "base" already on disk — path returned, no transfer,
progress map untouched, cache refreshed with the stat size. -/
theorem downloadModel_existing_file_witness :
    (downloadModel
        { docRoot := some "file:///docs", canCreate := true,
          stat1 := .ok ⟨true, 100⟩, stat2 := .ok ⟨true, 100⟩,
          ticks := [], downloadResult := none }
        ⟨[]⟩ baseModel initialManagerState).result
      = .ok ("file:///docs/whisper-models" ++ "/" ++ baseModel.filename)
  ∧ (downloadModel
        { docRoot := some "file:///docs", canCreate := true,
          stat1 := .ok ⟨true, 100⟩, stat2 := .ok ⟨true, 100⟩,
          ticks := [], downloadResult := none }
        ⟨[]⟩ baseModel initialManagerState).trace.networkStarted = false
  ∧ (downloadModel
        { docRoot := some "file:///docs", canCreate := true,
          stat1 := .ok ⟨true, 100⟩, stat2 := .ok ⟨true, 100⟩,
          ticks := [], downloadResult := none }
        ⟨[]⟩ baseModel initialManagerState).state.downloadProgress
      = initialManagerState.downloadProgress := by
  have h := downloadModel_existing_file
    { docRoot := some "file:///docs", canCreate := true,
      stat1 := .ok ⟨true, 100⟩, stat2 := .ok ⟨true, 100⟩,
      ticks := [], downloadResult := none }
    ⟨[]⟩ ⟨["file:///docs/whisper-models"]⟩ "file:///docs/whisper-models"
    baseModel initialManagerState (by rfl) rfl
  exact ⟨h.1, h.2.1, h.2.2.2.1⟩

/-- Progress fraction bound: when the transport never reports more written
bytes than expected, each published fraction is at most 1. -/
theorem tickFraction_le_one {w e : Nat} (h : w ≤ e) : tickFraction w e ≤ 1 := by
  unfold tickFraction
  split
  · rename_i he
    rw [div_le_one (by exact_mod_cast he)]
    exact_mod_cast h
  · norm_num

/-- Progress fraction monotonicity in the written bytes, at a fixed
expected total. -/
theorem tickFraction_mono {w1 w2 e : Nat} (h : w1 ≤ w2) :
    tickFraction w1 e ≤ tickFraction w2 e := by
  unfold tickFraction
  split
  · rename_i he
    have hq : (0 : Rat) < (e : Rat) := by exact_mod_cast he
    rw [div_le_div_iff_of_pos_right hq]
    exact_mod_cast h
  · exact le_refl 0

/-- C3: over any run whose progress ticks have non-decreasing written bytes,
a constant expected total, and never more written than expected, the
sequence of fractions `downloadModel` publishes is monotonically
non-decreasing; and whenever a transfer was actually started and ended at a
successful terminal status, the final published value is exactly 1. -/
theorem downloadModel_progress_monotone
    (env : DlEnv) (fs : FS) (model : WhisperModel) (s : ManagerState)
    (hmono : List.Chain' (fun a b : Nat × Nat => a.1 ≤ b.1 ∧ a.2 = b.2) env.ticks)
    (hle : ∀ t ∈ env.ticks, t.1 ≤ t.2) :
    List.Chain' (fun a b : Rat => a ≤ b)
        (downloadModel env fs model s).trace.progressEvents
  ∧ ((downloadModel env fs model s).trace.networkStarted = true →
      ∀ status, env.downloadResult = some status → isSuccessStatus status = true →
        (downloadModel env fs model s).trace.progressEvents.getLast? = some 1) := by
  have hchain : List.Chain' (fun a b : Rat => a ≤ b)
      (env.ticks.map fun t => tickFraction t.1 t.2) := by
    rw [List.chain'_map]
    refine hmono.imp ?_
    rintro a b ⟨hw, he⟩
    rw [he]
    exact tickFraction_mono hw
  have hbound : ∀ x ∈ (env.ticks.map fun t => tickFraction t.1 t.2), x ≤ 1 := by
    intro x hx
    obtain ⟨t, ht, rfl⟩ := List.mem_map.mp hx
    exact tickFraction_le_one (hle t ht)
  cases hdir : getModelDirectory env.docRoot env.canCreate fs with
  | error e =>
    refine ⟨by simp [downloadModel, hdir], fun hns => ?_⟩
    simp [downloadModel, hdir] at hns
  | ok p =>
    obtain ⟨fs2, dirPath⟩ := p
    cases hpb : preStatHere env.stat1 with
    | true =>
      refine ⟨by simp [downloadModel, hdir, hpb], fun hns => ?_⟩
      simp [downloadModel, hdir, hpb] at hns
    | false =>
      cases hres : env.downloadResult with
      | none =>
        refine ⟨by simp [downloadModel, hdir, hpb, hres, hchain], ?_⟩
        intro _ status hst
        exact absurd hst (by simp)
      | some status =>
        cases hs : isSuccessStatus status with
        | false =>
          refine ⟨by simp [downloadModel, hdir, hpb, hres, hs, hchain], ?_⟩
          intro _ st hst hsucc
          injection hst with h
          subst h
          simp [hs] at hsucc
        | true =>
          constructor
          · have happ : List.Chain' (fun a b : Rat => a ≤ b)
                ((env.ticks.map fun t => tickFraction t.1 t.2) ++ [1]) := by
              refine hchain.append (List.chain'_singleton 1) ?_
              intro x hx y hy
              have hy1 : (1 : Rat) = y := by simpa using hy
              obtain ⟨hne, hxl⟩ := List.mem_getLast?_eq_getLast hx
              rw [← hy1, hxl]
              exact hbound _ (List.getLast_mem hne)
            simpa [downloadModel, hdir, hpb, hres, hs] using happ
          · intro _ st hst hsucc
            simp [downloadModel, hdir, hpb, hres, hs]

/-- Witness for C3: the spec's own scenario — ticks (500/2000), (2000/2000),
terminal status 200 — yields the non-decreasing publications
1/4, 1, and then the terminal 1. -/
theorem downloadModel_progress_monotone_witness :
    List.Chain' (fun a b : Rat => a ≤ b)
      (downloadModel
        { docRoot := some "file:///docs", canCreate := true,
          stat1 := .ok ⟨false, 0⟩, stat2 := .ok ⟨true, 2000⟩,
          ticks := [(500, 2000), (2000, 2000)], downloadResult := some 200 }
        ⟨[]⟩ baseModel initialManagerState).trace.progressEvents
  ∧ (downloadModel
        { docRoot := some "file:///docs", canCreate := true,
          stat1 := .ok ⟨false, 0⟩, stat2 := .ok ⟨true, 2000⟩,
          ticks := [(500, 2000), (2000, 2000)], downloadResult := some 200 }
        ⟨[]⟩ baseModel initialManagerState).trace.progressEvents.getLast?
      = some 1 := by
  have h := downloadModel_progress_monotone
    { docRoot := some "file:///docs", canCreate := true,
      stat1 := .ok ⟨false, 0⟩, stat2 := .ok ⟨true, 2000⟩,
      ticks := [(500, 2000), (2000, 2000)], downloadResult := some 200 }
    ⟨[]⟩ baseModel initialManagerState
    (by simp [List.chain'_cons]) (by simp)
  exact ⟨h.1, h.2 (by rfl) 200 rfl (by decide)⟩

/-- Lookup after a spread update at the same key. -/
@[simp] theorem StrMap.lookup_insert {α : Type} (m : StrMap α) (k : String) (v : α) :
    m.insert k v k = some v := by
  simp [StrMap.insert]

/-- Lookup after a spread update at another key. -/
@[simp] theorem StrMap.lookup_insert_ne {α : Type} (m : StrMap α) (k q : String)
    (v : α) (h : q ≠ k) : m.insert k v q = m q := by
  simp [StrMap.insert, h]

/-- Lookup after a delete at the same key. -/
@[simp] theorem StrMap.lookup_erase {α : Type} (m : StrMap α) (k : String) :
    m.erase k k = none := by
  simp [StrMap.erase]

/-- The size `updateModelFileInfo` caches from a given stat outcome. -/
def statSize (stat : Except Unit FileStat) : Nat :=
  match stat with
  | .ok st => if st.here then st.size else 0
  | .error _ => 0

/-- Helper `updateModelFileInfo` always inserts the file's uri with `statSize`. -/
theorem updateModelFileInfo_eq (stat : Except Unit FileStat)
    (modelId fileUri : String) (files : StrMap ModelFileInfo) :
    updateModelFileInfo stat modelId fileUri files
      = files.insert modelId { path := fileUri, size := statSize stat } := by
  cases stat with
  | ok st => cases hb : st.here <;> simp [updateModelFileInfo, statSize, hb]
  | error e => rfl

/-- Environment for one `initializeWhisperModel` run. -/
structure InitEnv where
  /-- Environment of the inner `downloadModel` call. -/
  dl : DlEnv
  /-- Whether `loadWhisperNative` resolves the module (with an `initWhisper`
  export); `false` embeds the Expo Go case where it returns `null`. -/
  nativeAvailable : Bool
  /-- `whisperNative.initWhisper({filePath})`: the context handle, or a throw. -/
  initWhisperResult : Except Unit Nat
  /-- `typeof whisperNative.initWhisperVad === "function"`. -/
  vadAvailable : Bool
  /-- `whisperNative.initWhisperVad({filePath})`: the VAD handle, or a throw. -/
  initVadResult : Except Unit Nat

/-- Outcome of an `initializeWhisperModel` run.  `result` carries, on
success, the returned pair `(whisperContext, vadContext)`. -/
structure InitOutcome where
  result : Except WhisperError (Nat × Option Nat)
  fs : FS
  state : ManagerState
  trace : DlTrace

/-- Function `initializeWhisperModel` of `use-whisper-model.ts` (lines 246-305).
Resolve the id against `WHISPER_MODELS` ("Invalid model selected" if
unknown); set the initializing flag; `downloadModel`; probe the native
module (`engineUnavailable` when absent); `initWhisper`; record the context
and current model id; on request attempt VAD init, whose availability check
or failure only warns; return `{whisperContext: context, vadContext:
options?.initVad ? vadContext : null}` — where `vadContext` is the React
state value captured when the callback was created, i.e. the pre-call
`s.vadContext`, not the handle just produced; clear the initializing flag on
every path after the catalog check. -/
def initializeWhisperModel (env : InitEnv) (fs : FS) (modelId : String)
    (initVad : Bool) (s : ManagerState) : InitOutcome :=
  match WHISPER_MODELS.find? (fun m => m.id == modelId) with
  | none => { result := .error .unknownModel, fs := fs, state := s,
              trace := { progressEvents := [], networkStarted := false } }
  | some model =>
    let s0 := { s with isInitializingModel := true }
    let dl := downloadModel env.dl fs model s0
    match dl.result with
    | .error e =>
      { result := .error e, fs := dl.fs,
        state := { dl.state with isInitializingModel := false }, trace := dl.trace }
    | .ok _modelPath =>
      if env.nativeAvailable = false then
        { result := .error .engineUnavailable, fs := dl.fs,
          state := { dl.state with isInitializingModel := false }, trace := dl.trace }
      else
        match env.initWhisperResult with
        | .error _ =>
          { result := .error .engineInitFailed, fs := dl.fs,
            state := { dl.state with isInitializingModel := false }, trace := dl.trace }
        | .ok ctx =>
          let s2 := { dl.state with
            whisperContext := some ctx, currentModelId := some modelId }
          let s3 :=
            if initVad && env.vadAvailable then
              match env.initVadResult with
              | .ok vad => { s2 with vadContext := some vad }
              | .error _ => s2
            else s2
          { result := .ok (ctx, if initVad then s.vadContext else none),
            fs := dl.fs, state := { s3 with isInitializingModel := false },
            trace := dl.trace }

/-- C4: an id not in the catalog makes `initializeWhisperModel` fail with
`UnknownModel` and have no effects at all: the manager state, the
filesystem, and the trace (no publication, no transfer) are untouched. -/
theorem initializeWhisperModel_unknown_model
    (env : InitEnv) (fs : FS) (modelId : String) (initVad : Bool)
    (s : ManagerState) (h : ∀ m ∈ WHISPER_MODELS, m.id ≠ modelId) :
    (initializeWhisperModel env fs modelId initVad s).result = .error .unknownModel
  ∧ (initializeWhisperModel env fs modelId initVad s).state = s
  ∧ (initializeWhisperModel env fs modelId initVad s).fs = fs
  ∧ (initializeWhisperModel env fs modelId initVad s).trace
      = { progressEvents := [], networkStarted := false } := by
  have hfind : WHISPER_MODELS.find? (fun m => m.id == modelId) = none := by
    rw [List.find?_eq_none]
    intro m hm
    simpa using h m hm
  refine ⟨?_, ?_, ?_, ?_⟩ <;> simp [initializeWhisperModel, hfind]

/-- Witness for C4 at the unknown id "medium". -/
theorem initializeWhisperModel_unknown_model_witness :
    (initializeWhisperModel
        { dl := { docRoot := some "file:///docs", canCreate := true,
                  stat1 := .ok ⟨false, 0⟩, stat2 := .ok ⟨true, 1⟩,
                  ticks := [], downloadResult := some 200 },
          nativeAvailable := true, initWhisperResult := .ok 1,
          vadAvailable := true, initVadResult := .ok 2 }
        ⟨[]⟩ "medium" false initialManagerState).result = .error .unknownModel
  ∧ (initializeWhisperModel
        { dl := { docRoot := some "file:///docs", canCreate := true,
                  stat1 := .ok ⟨false, 0⟩, stat2 := .ok ⟨true, 1⟩,
                  ticks := [], downloadResult := some 200 },
          nativeAvailable := true, initWhisperResult := .ok 1,
          vadAvailable := true, initVadResult := .ok 2 }
        ⟨[]⟩ "medium" false initialManagerState).state = initialManagerState := by
  have h := initializeWhisperModel_unknown_model
    { dl := { docRoot := some "file:///docs", canCreate := true,
              stat1 := .ok ⟨false, 0⟩, stat2 := .ok ⟨true, 1⟩,
              ticks := [], downloadResult := some 200 },
      nativeAvailable := true, initWhisperResult := .ok 1,
      vadAvailable := true, initVadResult := .ok 2 }
    ⟨[]⟩ "medium" false initialManagerState (by decide)
  exact ⟨h.1, h.2.1⟩

/-- C10: for a known model whose file is absent, when the native module is
unavailable `initializeWhisperModel` still runs the download first — it
fails with the engine-unavailable error, yet a transfer was started, the
model's ModelFileInfo entry is populated, and its progress stands at 1. -/
theorem initializeWhisperModel_downloads_before_native_probe
    (env : InitEnv) (fs fs2 : FS) (dirPath : String) (modelId : String)
    (model : WhisperModel) (initVad : Bool) (s : ManagerState)
    (hfind : WHISPER_MODELS.find? (fun m => m.id == modelId) = some model)
    (hdir : getModelDirectory env.dl.docRoot env.dl.canCreate fs = .ok (fs2, dirPath))
    (hpre : preStatHere env.dl.stat1 = false)
    (status : Nat) (hres : env.dl.downloadResult = some status)
    (hok : isSuccessStatus status = true)
    (hnative : env.nativeAvailable = false) :
    (initializeWhisperModel env fs modelId initVad s).result
        = .error .engineUnavailable
  ∧ (initializeWhisperModel env fs modelId initVad s).state.modelFiles model.id
      = some { path := dirPath ++ "/" ++ model.filename,
               size := statSize env.dl.stat2 }
  ∧ (initializeWhisperModel env fs modelId initVad s).state.downloadProgress
        model.id = some 1
  ∧ (initializeWhisperModel env fs modelId initVad s).trace.networkStarted
      = true := by
  refine ⟨?_, ?_, ?_, ?_⟩ <;>
    simp [initializeWhisperModel, hfind, downloadModel, hdir, hpre, hres, hok,
      hnative, updateModelFileInfo_eq]

/-- Witness for C10: "base" absent, transfer succeeds with 200, native
module unavailable — `EngineUnavailable` is raised but the download's cache
entry and final progress remain. -/
theorem initializeWhisperModel_downloads_before_native_probe_witness :
    (initializeWhisperModel
        { dl := { docRoot := some "file:///docs", canCreate := true,
                  stat1 := .ok ⟨false, 0⟩, stat2 := .ok ⟨true, 147951465⟩,
                  ticks := [(147951465, 147951465)], downloadResult := some 200 },
          nativeAvailable := false, initWhisperResult := .error (),
          vadAvailable := false, initVadResult := .error () }
        ⟨[]⟩ "base" false initialManagerState).result = .error .engineUnavailable
  ∧ (initializeWhisperModel
        { dl := { docRoot := some "file:///docs", canCreate := true,
                  stat1 := .ok ⟨false, 0⟩, stat2 := .ok ⟨true, 147951465⟩,
                  ticks := [(147951465, 147951465)], downloadResult := some 200 },
          nativeAvailable := false, initWhisperResult := .error (),
          vadAvailable := false, initVadResult := .error () }
        ⟨[]⟩ "base" false initialManagerState).state.modelFiles "base"
      = some { path := "file:///docs/whisper-models" ++ "/" ++ "ggml-base.bin",
               size := 147951465 }
  ∧ (initializeWhisperModel
        { dl := { docRoot := some "file:///docs", canCreate := true,
                  stat1 := .ok ⟨false, 0⟩, stat2 := .ok ⟨true, 147951465⟩,
                  ticks := [(147951465, 147951465)], downloadResult := some 200 },
          nativeAvailable := false, initWhisperResult := .error (),
          vadAvailable := false, initVadResult := .error () }
        ⟨[]⟩ "base" false initialManagerState).state.downloadProgress "base"
      = some 1 := by
  have h := initializeWhisperModel_downloads_before_native_probe
    { dl := { docRoot := some "file:///docs", canCreate := true,
              stat1 := .ok ⟨false, 0⟩, stat2 := .ok ⟨true, 147951465⟩,
              ticks := [(147951465, 147951465)], downloadResult := some 200 },
      nativeAvailable := false, initWhisperResult := .error (),
      vadAvailable := false, initVadResult := .error () }
    ⟨[]⟩ ⟨["file:///docs/whisper-models"]⟩ "file:///docs/whisper-models" "base"
    baseModel false initialManagerState (by rfl) (by rfl) rfl 200 rfl rfl rfl
  exact ⟨h.1, h.2.1, h.2.2.1⟩

/-- C5, evaluated at the failing input: the manager already holds a VAD
handle (7) from an earlier initialization; a new `initializeWhisperModel`
of the known model "base" with `initVad := true` whose VAD init throws does
succeed with a valid primary handle (2), but its returned `vadContext`
component is the stale captured state value `some 7`, not `null` — the
source returns the `vadContext` state variable captured by the callback
closure instead of the result of the VAD attempt, and the stale handle also
stays in the state. -/
theorem initializeWhisperModel_vadFail_returns_stale_vad :
    (initializeWhisperModel
        { dl := { docRoot := some "file:///docs", canCreate := true,
                  stat1 := .ok ⟨true, 100⟩, stat2 := .ok ⟨true, 100⟩,
                  ticks := [], downloadResult := none },
          nativeAvailable := true, initWhisperResult := .ok 2,
          vadAvailable := true, initVadResult := .error () }
        ⟨["file:///docs/whisper-models"]⟩ "base" true
        { initialManagerState with
          whisperContext := some 1,
          currentModelId := some "tiny-en",
          vadContext := some 7 }).result
      = .ok (2, some 7)
  ∧ (initializeWhisperModel
        { dl := { docRoot := some "file:///docs", canCreate := true,
                  stat1 := .ok ⟨true, 100⟩, stat2 := .ok ⟨true, 100⟩,
                  ticks := [], downloadResult := none },
          nativeAvailable := true, initWhisperResult := .ok 2,
          vadAvailable := true, initVadResult := .error () }
        ⟨["file:///docs/whisper-models"]⟩ "base" true
        { initialManagerState with
          whisperContext := some 1,
          currentModelId := some "tiny-en",
          vadContext := some 7 }).state.vadContext
      = some 7 := by
  constructor <;> rfl

/-- Environment for one `deleteModel` run. -/
structure DeleteEnv where
  /-- `file.info()` on the cached path; `.error` = it threw. -/
  statResult : Except Unit FileStat
  /-- Whether `file.delete()`, if reached, succeeds. -/
  deleteOk : Bool
  /-- Whether `whisperContext.release()`, if attempted, throws. -/
  releaseThrows : Bool

/-- Outcome of a `deleteModel` run.  `releaseWarned` records that a release
failure was logged (swallowed) rather than propagated. -/
structure DeleteOutcome where
  result : Except WhisperError Unit
  state : ManagerState
  releaseWarned : Bool

/-- Function `deleteModel` of `use-whisper-model.ts` (lines 339-388).  A model with
no ModelFileInfo entry is a warned no-op.  Then `file.info()` and, when the
file exists, `file.delete()` run inside a try whose catch re-throws — both
before any state change.  Only after that are the ModelFileInfo and
progress entries removed; and if the model is the current one, the native
release is attempted best-effort (a throw only warns) and the engine, VAD
and current-model cells are cleared. -/
def deleteModel (env : DeleteEnv) (modelId : String) (s : ManagerState) :
    DeleteOutcome :=
  match s.modelFiles modelId with
  | none => { result := .ok (), state := s, releaseWarned := false }
  | some _fileInfo =>
    match env.statResult with
    | .error _ => { result := .error .deleteFailed, state := s, releaseWarned := false }
    | .ok st =>
      if st.here && !env.deleteOk then
        { result := .error .deleteFailed, state := s, releaseWarned := false }
      else
        let s1 := { s with
          modelFiles := s.modelFiles.erase modelId,
          downloadProgress := s.downloadProgress.erase modelId }
        if s.currentModelId = some modelId then
          { result := .ok (),
            state := { s1 with
              whisperContext := none, currentModelId := none, vadContext := none },
            releaseWarned := s.whisperContext.isSome && env.releaseThrows }
        else
          { result := .ok (), state := s1, releaseWarned := false }

/-- Function `resetWhisperContext` of `use-whisper-model.ts` (lines 308-313):
unconditionally clears the engine handle, the VAD handle and the current
model id. -/
def resetWhisperContext (s : ManagerState) : ManagerState :=
  { s with whisperContext := none, vadContext := none, currentModelId := none }

/-- C6: deleting the current model (entry present, filesystem deletion
succeeding) succeeds, clears `currentModelId`, the engine handle and the
VAD handle, and removes the model's ModelFileInfo and progress entries —
whatever `release()` does; a release throw is only logged as a warning. -/
theorem deleteModel_current_model_clears_all
    (env : DeleteEnv) (modelId : String) (s : ManagerState) (fi : ModelFileInfo)
    (hfi : s.modelFiles modelId = some fi)
    (st : FileStat) (hstat : env.statResult = .ok st)
    (hdel : st.here = true → env.deleteOk = true)
    (hcur : s.currentModelId = some modelId) :
    (deleteModel env modelId s).result = .ok ()
  ∧ (deleteModel env modelId s).state.currentModelId = none
  ∧ (deleteModel env modelId s).state.whisperContext = none
  ∧ (deleteModel env modelId s).state.vadContext = none
  ∧ (deleteModel env modelId s).state.modelFiles modelId = none
  ∧ (deleteModel env modelId s).state.downloadProgress modelId = none
  ∧ (s.whisperContext.isSome = true → env.releaseThrows = true →
      (deleteModel env modelId s).releaseWarned = true) := by
  have hcond : (st.here && !env.deleteOk) = false := by
    cases hb : st.here
    · simp
    · simp [hdel hb]
  refine ⟨?_, ?_, ?_, ?_, ?_, ?_, fun h1 h2 => ?_⟩ <;>
    simp [deleteModel, hfi, hstat, hcond, hcur, *]

/-- Witness for C6: "base" is current, its file exists and deletes fine,
`release()` throws — every cell is still cleared and the throw only warns. -/
theorem deleteModel_current_model_clears_all_witness :
    (deleteModel { statResult := .ok ⟨true, 5⟩, deleteOk := true, releaseThrows := true }
        "base"
        { modelFiles := StrMap.empty.insert "base" ⟨"file:///p", 5⟩,
          downloadProgress := StrMap.empty.insert "base" 1,
          isDownloading := false, isInitializingModel := false,
          whisperContext := some 3, vadContext := some 4,
          currentModelId := some "base" }).state.currentModelId = none
  ∧ (deleteModel { statResult := .ok ⟨true, 5⟩, deleteOk := true, releaseThrows := true }
        "base"
        { modelFiles := StrMap.empty.insert "base" ⟨"file:///p", 5⟩,
          downloadProgress := StrMap.empty.insert "base" 1,
          isDownloading := false, isInitializingModel := false,
          whisperContext := some 3, vadContext := some 4,
          currentModelId := some "base" }).state.modelFiles "base" = none
  ∧ (deleteModel { statResult := .ok ⟨true, 5⟩, deleteOk := true, releaseThrows := true }
        "base"
        { modelFiles := StrMap.empty.insert "base" ⟨"file:///p", 5⟩,
          downloadProgress := StrMap.empty.insert "base" 1,
          isDownloading := false, isInitializingModel := false,
          whisperContext := some 3, vadContext := some 4,
          currentModelId := some "base" }).releaseWarned = true := by
  have h := deleteModel_current_model_clears_all
    { statResult := .ok ⟨true, 5⟩, deleteOk := true, releaseThrows := true }
    "base"
    { modelFiles := StrMap.empty.insert "base" ⟨"file:///p", 5⟩,
      downloadProgress := StrMap.empty.insert "base" 1,
      isDownloading := false, isInitializingModel := false,
      whisperContext := some 3, vadContext := some 4,
      currentModelId := some "base" }
    ⟨"file:///p", 5⟩ (by simp) ⟨true, 5⟩ rfl (fun _ => rfl) rfl
  exact ⟨h.2.1, h.2.2.2.2.1, h.2.2.2.2.2.2 rfl rfl⟩

/-- C9: when the stat or the file deletion throws, `deleteModel` propagates
`DeleteFailed` and mutates nothing — the entire manager state is returned
unchanged, because every mutation sits after the delete in the source. -/
theorem deleteModel_atomic_on_fs_failure
    (env : DeleteEnv) (modelId : String) (s : ManagerState) (fi : ModelFileInfo)
    (hfi : s.modelFiles modelId = some fi)
    (hfail : env.statResult = .error () ∨
      ∃ st, env.statResult = .ok st ∧ st.here = true ∧ env.deleteOk = false) :
    (deleteModel env modelId s).result = .error .deleteFailed
  ∧ (deleteModel env modelId s).state = s := by
  rcases hfail with h | ⟨st, hst, hh, hd⟩
  · constructor <;> simp [deleteModel, hfi, h]
  · have hcond : (st.here && !env.deleteOk) = true := by simp [hh, hd]
    constructor <;> simp [deleteModel, hfi, hst, hcond]

/-- Witness for C9: deleting "base" while the backing file's delete throws
leaves result `DeleteFailed` and the state identical. -/
theorem deleteModel_atomic_on_fs_failure_witness :
    (deleteModel { statResult := .ok ⟨true, 5⟩, deleteOk := false, releaseThrows := false }
        "base"
        { modelFiles := StrMap.empty.insert "base" ⟨"file:///p", 5⟩,
          downloadProgress := StrMap.empty.insert "base" 1,
          isDownloading := false, isInitializingModel := false,
          whisperContext := some 3, vadContext := some 4,
          currentModelId := some "base" }).result = .error .deleteFailed
  ∧ (deleteModel { statResult := .ok ⟨true, 5⟩, deleteOk := false, releaseThrows := false }
        "base"
        { modelFiles := StrMap.empty.insert "base" ⟨"file:///p", 5⟩,
          downloadProgress := StrMap.empty.insert "base" 1,
          isDownloading := false, isInitializingModel := false,
          whisperContext := some 3, vadContext := some 4,
          currentModelId := some "base" }).state
      = { modelFiles := StrMap.empty.insert "base" ⟨"file:///p", 5⟩,
          downloadProgress := StrMap.empty.insert "base" 1,
          isDownloading := false, isInitializingModel := false,
          whisperContext := some 3, vadContext := some 4,
          currentModelId := some "base" } :=
  deleteModel_atomic_on_fs_failure
    { statResult := .ok ⟨true, 5⟩, deleteOk := false, releaseThrows := false }
    "base"
    { modelFiles := StrMap.empty.insert "base" ⟨"file:///p", 5⟩,
      downloadProgress := StrMap.empty.insert "base" 1,
      isDownloading := false, isInitializingModel := false,
      whisperContext := some 3, vadContext := some 4,
      currentModelId := some "base" }
    ⟨"file:///p", 5⟩ (by simp)
    (Or.inr ⟨⟨true, 5⟩, rfl, rfl, rfl⟩)

/-- One model's contribution to the mount scan (lines 398-424): an existing
file yields `{path, size}`, a missing file yields nothing, and — unlike in
`downloadModel` — a stat throw yields an entry with size 0. -/
def scanEntry (stat : Except Unit FileStat) (dirPath : String)
    (m : WhisperModel) : Option ModelFileInfo :=
  match stat with
  | .ok st =>
    if st.here then some { path := dirPath ++ "/" ++ m.filename, size := st.size }
    else none
  | .error _ => some { path := dirPath ++ "/" ++ m.filename, size := 0 }

/-- The `loadExistingModels` mount effect (lines 391-449): resolve the
directory (any error only warns and changes nothing), scan every catalog
entry, and merge the discovered entries over the existing cache. -/
def loadExistingModels (docRoot : Option String) (canCreate : Bool)
    (stats : String → Except Unit FileStat) (fs : FS) (s : ManagerState) :
    FS × ManagerState :=
  match getModelDirectory docRoot canCreate fs with
  | .error _ => (fs, s)
  | .ok (fs2, dirPath) =>
    let files := WHISPER_MODELS.foldl (fun acc m =>
      match scanEntry (stats m.id) dirPath m with
      | some info => acc.insert m.id info
      | none => acc) s.modelFiles
    (fs2, { s with modelFiles := files })

/-- The manager's operations, each packaged with its environment. -/
inductive ManagerOp where
  | download (env : DlEnv) (model : WhisperModel)
  | initModel (env : InitEnv) (modelId : String) (initVad : Bool)
  | reset
  | deleteOp (env : DeleteEnv) (modelId : String)
  | scan (docRoot : Option String) (canCreate : Bool)
      (stats : String → Except Unit FileStat)

/-- Apply one operation to the filesystem and manager state. -/
def applyOp (op : ManagerOp) (w : FS × ManagerState) : FS × ManagerState :=
  match op with
  | .download env model =>
    let out := downloadModel env w.1 model w.2
    (out.fs, out.state)
  | .initModel env modelId initVad =>
    let out := initializeWhisperModel env w.1 modelId initVad w.2
    (out.fs, out.state)
  | .reset => (w.1, resetWhisperContext w.2)
  | .deleteOp env modelId => (w.1, (deleteModel env modelId w.2).state)
  | .scan docRoot canCreate stats => loadExistingModels docRoot canCreate stats w.1 w.2

/-- Run a sequence of operations from the hook's initial state over an
empty filesystem: the manager's reachable states. -/
def runOps (ops : List ManagerOp) : FS × ManagerState :=
  ops.foldl (fun w op => applyOp op w) (⟨[]⟩, initialManagerState)

/-- The engine-slot invariant: `currentModelId` is non-null exactly when the
engine handle is. -/
def slotInvariant (s : ManagerState) : Prop :=
  s.currentModelId.isSome = s.whisperContext.isSome

/-- Function `downloadModel` never touches the engine slot. -/
theorem downloadModel_preserves_slot (env : DlEnv) (fs : FS)
    (model : WhisperModel) (s : ManagerState) :
    (downloadModel env fs model s).state.whisperContext = s.whisperContext
  ∧ (downloadModel env fs model s).state.currentModelId = s.currentModelId := by
  cases hdir : getModelDirectory env.docRoot env.canCreate fs with
  | error e => simp [downloadModel, hdir]
  | ok p =>
    obtain ⟨fs2, dirPath⟩ := p
    cases hpb : preStatHere env.stat1 with
    | true => simp [downloadModel, hdir, hpb]
    | false =>
      cases hres : env.downloadResult with
      | none => simp [downloadModel, hdir, hpb, hres]
      | some status =>
        cases hs : isSuccessStatus status <;>
          simp [downloadModel, hdir, hpb, hres, hs]

/-- Function `initializeWhisperModel` preserves the engine-slot invariant: every
failure path leaves both cells as the download left them (untouched), and
the success path sets both together. -/
theorem initializeWhisperModel_slotInvariant (env : InitEnv) (fs : FS)
    (modelId : String) (initVad : Bool) (s : ManagerState)
    (h : slotInvariant s) :
    slotInvariant (initializeWhisperModel env fs modelId initVad s).state := by
  unfold slotInvariant at h ⊢
  cases hfind : WHISPER_MODELS.find? (fun m => m.id == modelId) with
  | none => simpa [initializeWhisperModel, hfind] using h
  | some model =>
    have hdl := downloadModel_preserves_slot env.dl fs model
      { s with isInitializingModel := true }
    cases hres : (downloadModel env.dl fs model
        { s with isInitializingModel := true }).result with
    | error e =>
      simpa [initializeWhisperModel, hfind, hres, hdl.1, hdl.2] using h
    | ok path =>
      cases hnat : env.nativeAvailable with
      | false =>
        simpa [initializeWhisperModel, hfind, hres, hnat, hdl.1, hdl.2] using h
      | true =>
        cases hiw : env.initWhisperResult with
        | error u =>
          simpa [initializeWhisperModel, hfind, hres, hnat, hiw, hdl.1, hdl.2]
            using h
        | ok ctx =>
          by_cases hv : (initVad && env.vadAvailable) = true
          · cases hvr : env.initVadResult <;>
              simp [initializeWhisperModel, hfind, hres, hnat, hiw, hv, hvr]
          · simp [initializeWhisperModel, hfind, hres, hnat, hiw, hv]

/-- Function `deleteModel` preserves the engine-slot invariant: it either leaves the
slot alone or clears both cells together. -/
theorem deleteModel_slotInvariant (env : DeleteEnv) (modelId : String)
    (s : ManagerState) (h : slotInvariant s) :
    slotInvariant (deleteModel env modelId s).state := by
  unfold slotInvariant at h ⊢
  cases hfi : s.modelFiles modelId with
  | none => simpa [deleteModel, hfi] using h
  | some fi =>
    cases hstat : env.statResult with
    | error u => simpa [deleteModel, hfi, hstat] using h
    | ok st =>
      cases hcond : (st.here && !env.deleteOk) with
      | true => simpa [deleteModel, hfi, hstat, hcond] using h
      | false =>
        by_cases hcur : s.currentModelId = some modelId
        · simp [deleteModel, hfi, hstat, hcond, hcur]
        · simpa [deleteModel, hfi, hstat, hcond, hcur] using h

/-- The mount scan only touches the ModelFileInfo cache. -/
theorem loadExistingModels_slotInvariant (docRoot : Option String)
    (canCreate : Bool) (stats : String → Except Unit FileStat) (fs : FS)
    (s : ManagerState) (h : slotInvariant s) :
    slotInvariant (loadExistingModels docRoot canCreate stats fs s).2 := by
  unfold slotInvariant at h ⊢
  cases hdir : getModelDirectory docRoot canCreate fs with
  | error e => simpa [loadExistingModels, hdir] using h
  | ok p =>
    obtain ⟨fs2, dirPath⟩ := p
    simpa [loadExistingModels, hdir] using h

/-- Every operation preserves the engine-slot invariant. -/
theorem applyOp_slotInvariant (op : ManagerOp) (w : FS × ManagerState)
    (h : slotInvariant w.2) : slotInvariant (applyOp op w).2 := by
  cases op with
  | download env model =>
    have hdl := downloadModel_preserves_slot env w.1 model w.2
    unfold slotInvariant at h ⊢
    simpa [applyOp, hdl.1, hdl.2] using h
  | initModel env modelId initVad =>
    exact initializeWhisperModel_slotInvariant env w.1 modelId initVad w.2 h
  | reset =>
    simp [applyOp, resetWhisperContext, slotInvariant]
  | deleteOp env modelId =>
    exact deleteModel_slotInvariant env modelId w.2 h
  | scan docRoot canCreate stats =>
    exact loadExistingModels_slotInvariant docRoot canCreate stats w.1 w.2 h

/-- Invariance along any operation sequence from an invariant state. -/
theorem foldl_slotInvariant (ops : List ManagerOp) (w : FS × ManagerState)
    (h : slotInvariant w.2) :
    slotInvariant (ops.foldl (fun a op => applyOp op a) w).2 := by
  induction ops generalizing w with
  | nil => simpa using h
  | cons op rest ih => exact ih (applyOp op w) (applyOp_slotInvariant op w h)

/-- C7: in every reachable manager state, `currentModelId` is non-null iff
the engine handle is non-null, and each operation preserves that invariant
by setting or clearing the two together. -/
theorem manager_slot_invariant :
    (∀ (op : ManagerOp) (w : FS × ManagerState), slotInvariant w.2 →
        slotInvariant (applyOp op w).2)
  ∧ (∀ ops : List ManagerOp, slotInvariant (runOps ops).2) :=
  ⟨applyOp_slotInvariant,
   fun ops => foldl_slotInvariant ops (⟨[]⟩, initialManagerState) rfl⟩

/-- Witness for C7: applying a reset to the initial state keeps the
invariant, and a two-operation run from the initial state satisfies it. -/
theorem manager_slot_invariant_witness :
    slotInvariant (applyOp .reset (⟨[]⟩, initialManagerState)).2
  ∧ slotInvariant (runOps [.reset,
      .deleteOp { statResult := .ok ⟨true, 5⟩, deleteOk := true,
                  releaseThrows := false } "base"]).2 :=
  ⟨manager_slot_invariant.1 .reset (⟨[]⟩, initialManagerState) rfl,
   manager_slot_invariant.2 [.reset,
     .deleteOp { statResult := .ok ⟨true, 5⟩, deleteOk := true,
                 releaseThrows := false } "base"]⟩
